import Mathlib

/-!
Verification of the ngx-image-cropper core against its design specification.

This file gives a shallow embedding, in Lean 4, of the two core source files

  * `src/projects/ngx-image-cropper/src/lib/services/load-image.service.ts`
    (the image transform pipeline), and
  * `src/projects/ngx-image-cropper/src/lib/component/cropper.state.ts`
    (the cropper geometry/state engine),

and proves or refutes the specification's claims about them.  JavaScript
numbers are modelled as exact rationals (`ℚ`); truthiness of a number is
modelled as `≠ 0`, of an absent (`undefined`) field as `Option.isSome`.
Asynchronous rendering (canvas drawing, blob encoding) is modelled only up to
the data that decides the claims: which branch is taken and with which sizes.
-/

namespace ImageCropper

/-- Pixel extents, as in the `Dimensions` interface. -/
structure Dimensions where
  width : ℚ
  height : ℚ
deriving DecidableEq

/-- The `ExifTransform` interface: a rotation in quarter turns and a
horizontal flip, as produced by `getTransformationsFromExifData`. -/
structure ExifTransform where
  rotate : ℤ
  flip : Bool
deriving DecidableEq

/-- The fields of the `LoadImageOptions` interface that the embedded
functions of `load-image.service.ts` read.  `canvasRotation` and
`aspectRatio` are optional there (`options.canvasRotation ?? 0`,
`options.aspectRatio ?? 1`). -/
structure LoadImageOptions where
  canvasRotation : Option ℤ := none
  aspectRatio : Option ℚ := none
  containWithinAspectRatio : Bool := false
  checkImageType : Bool := true
deriving DecidableEq

/-- `LoadImageService.getTransformedSize` (load-image.service.ts, lines
196-230), translated clause by clause.  `canvasRotation % 2` is truthy in
JavaScript exactly when the rotation is odd, which `¬ r % 2 = 0` captures
for `ℤ` as well. -/
def getTransformedSize (originalSize : Dimensions) (exifTransform : ExifTransform)
    (options : LoadImageOptions) : Dimensions :=
  let canvasRotation : ℤ := options.canvasRotation.getD 0 + exifTransform.rotate
  if options.containWithinAspectRatio then
    if canvasRotation % 2 ≠ 0 then
      { width := max originalSize.height (originalSize.width * options.aspectRatio.getD 1)
        height := max originalSize.width (originalSize.height / options.aspectRatio.getD 1) }
    else
      { width := max originalSize.width (originalSize.height * options.aspectRatio.getD 1)
        height := max originalSize.height (originalSize.width / options.aspectRatio.getD 1) }
  else if canvasRotation % 2 ≠ 0 then
    { width := originalSize.height, height := originalSize.width }
  else
    { width := originalSize.width, height := originalSize.height }

/-- One concrete rendered form of an image.  The bitmap and the object URL
are opaque handles; we model them as numbers so that reuse (alias) versus
fresh allocation is observable. -/
structure ImageVariant where
  objectUrl : ℕ
  image : ℕ
  size : Dimensions
deriving DecidableEq

/-- The part of a `Partial<LoadedImage>` that `transformLoadedImage` reads:
the original variant and the exif transform. -/
structure PartialLoadedImage where
  original : ImageVariant
  exifTransform : ExifTransform
deriving DecidableEq

/-- Outcome of `transformLoadedImage`: either the original bitmap is reused
unchanged as the transformed variant (the early return at lines 128-142), or
a fresh variant is rendered onto a canvas of the computed target size (the
code after line 144; the canvas draw and blob encode are effectful and are
modelled only by the target size that decides them). -/
inductive TransformResult where
  | reused (original transformed : ImageVariant) (exifTransform : ExifTransform)
  | rendered (targetSize : Dimensions)
deriving DecidableEq

/-- `LoadImageService.transformLoadedImage` (load-image.service.ts, lines
125-185), up to the effectful render.  Note the skip test at line 128
compares the plain sum `(options.canvasRotation ?? 0) + exifTransform.rotate`
with `0`, with no reduction modulo 4. -/
def transformLoadedImage (loadedImage : PartialLoadedImage)
    (options : LoadImageOptions) (forceTransform : Bool) : TransformResult :=
  let canvasRotation : ℤ := options.canvasRotation.getD 0 + loadedImage.exifTransform.rotate
  if !forceTransform && decide (canvasRotation = 0) && !loadedImage.exifTransform.flip
      && !options.containWithinAspectRatio then
    .reused
      { objectUrl := loadedImage.original.objectUrl
        image := loadedImage.original.image
        size := loadedImage.original.size }
      { objectUrl := loadedImage.original.objectUrl
        image := loadedImage.original.image
        size := loadedImage.original.size }
      loadedImage.exifTransform
  else
    .rendered (getTransformedSize loadedImage.original.size loadedImage.exifTransform options)

/-- One position of a pattern built from literal characters and the
single-character wildcard that an unescaped `.` is in a regular expression. -/
def charMatches (p : Option Char) (c : Char) : Bool :=
  match p with
  | none => true
  | some d => d == c

/-- Whether the pattern matches a prefix of the character list. -/
def matchPatAt : List (Option Char) → List Char → Bool
  | [], _ => true
  | _ :: _, [] => false
  | p :: ps, c :: cs => charMatches p c && matchPatAt ps cs

/-- A literal pattern: each character of the string matches only itself. -/
def litPat (s : String) : List (Option Char) :=
  s.toList.map some

/-- The alternatives of the regular expression at load-image.service.ts line
32, `image\/(png|jpg|jpeg|heic|bmp|gif|tiff|svg|webp|x-icon|vnd.microsoft.icon)`.
The dots in `vnd.microsoft.icon` are unescaped and hence match any
character. -/
def imageTypeAlternatives : List (List (Option Char)) :=
  [litPat "png", litPat "jpg", litPat "jpeg", litPat "heic", litPat "bmp",
   litPat "gif", litPat "tiff", litPat "svg", litPat "webp", litPat "x-icon",
   litPat "vnd" ++ [none] ++ litPat "microsoft" ++ [none] ++ litPat "icon"]

/-- Whether the regular expression matches starting at the head of `s`. -/
def imageTypeMatchHere (s : List Char) : Bool :=
  imageTypeAlternatives.any (fun alt => matchPatAt (litPat "image/" ++ alt) s)

/-- Whether the regular expression matches at some position of `s`; this is
the semantics of `RegExp.test` for an unanchored pattern without flags
(in particular the pattern is case-sensitive and may match anywhere in the
string, not only as a prefix). -/
def imageTypeSearch : List Char → Bool
  | [] => imageTypeMatchHere []
  | c :: cs => imageTypeMatchHere (c :: cs) || imageTypeSearch cs

/-- `LoadImageService.isValidImageType` (load-image.service.ts, lines
31-33). -/
def isValidImageType (type : String) : Bool :=
  imageTypeSearch type.toList

/-- Result of the type gate in front of the decoder: either the load is
rejected before any decode attempt, or it proceeds to
`loadImageFromArrayBuffer` with the declared type. -/
inductive LoadOutcome where
  | rejected (message : String)
  | proceedsToDecode (imageType : String)
deriving DecidableEq

/-- `LoadImageService.checkImageTypeAndLoadImageFromArrayBuffer`
(load-image.service.ts, lines 24-29), up to the decode it hands off to. -/
def checkImageTypeAndLoadImageFromArrayBuffer (imageType : String) : LoadOutcome :=
  if !isValidImageType imageType then
    .rejected "Invalid image type"
  else
    .proceedsToDecode imageType

/-- The declarative reading of the amended acceptance condition: some
position of the string starts a (case-sensitive) match of
`image/(png|jpg|jpeg|heic|bmp|gif|tiff|svg|webp|x-icon|vnd.microsoft.icon)`,
the unescaped dots matching any character. -/
def imageTypeSubstringMatch (type : String) : Prop :=
  ∃ n, imageTypeMatchHere (type.toList.drop n) = true

/-- The fields of the `CropperOptions` interface that the embedded methods
of `cropper.state.ts` read, with the defaults assigned at lines 12-37.
Fields the embedded methods never read (format, output quality, UI flags,
and so on) are omitted. -/
structure CropperOptions where
  maintainAspectRatio : Bool := true
  aspectRatio : ℚ := 1
  resetCropOnAspectRatioChange : Bool := true
  cropperMinWidth : ℚ := 0
  cropperMinHeight : ℚ := 0
  cropperMaxWidth : ℚ := 0
  cropperMaxHeight : ℚ := 0
  cropperStaticWidth : ℚ := 0
  cropperStaticHeight : ℚ := 0
deriving DecidableEq

/-- A `Partial<CropperOptions>`: every field may be absent. -/
structure PartialCropperOptions where
  maintainAspectRatio : Option Bool := none
  aspectRatio : Option ℚ := none
  resetCropOnAspectRatioChange : Option Bool := none
  cropperMinWidth : Option ℚ := none
  cropperMinHeight : Option ℚ := none
  cropperMaxWidth : Option ℚ := none
  cropperMaxHeight : Option ℚ := none
  cropperStaticWidth : Option ℚ := none
  cropperStaticHeight : Option ℚ := none
deriving DecidableEq

/-- The object spread `{...this.options, ...(options || {})}` at
cropper.state.ts lines 62-65: a present field of the partial replaces the
stored field. -/
def mergeOptions (o : CropperOptions) (p : PartialCropperOptions) : CropperOptions :=
  { maintainAspectRatio := p.maintainAspectRatio.getD o.maintainAspectRatio
    aspectRatio := p.aspectRatio.getD o.aspectRatio
    resetCropOnAspectRatioChange := p.resetCropOnAspectRatioChange.getD o.resetCropOnAspectRatioChange
    cropperMinWidth := p.cropperMinWidth.getD o.cropperMinWidth
    cropperMinHeight := p.cropperMinHeight.getD o.cropperMinHeight
    cropperMaxWidth := p.cropperMaxWidth.getD o.cropperMaxWidth
    cropperMaxHeight := p.cropperMaxHeight.getD o.cropperMaxHeight
    cropperStaticWidth := p.cropperStaticWidth.getD o.cropperStaticWidth
    cropperStaticHeight := p.cropperStaticHeight.getD o.cropperStaticHeight }

/-- JavaScript truthiness of an optional numeric field of a partial options
object, as used in tests such as `options['aspectRatio']` or
`options['cropperMinWidth']`: present and nonzero. -/
def optTruthy (x : Option ℚ) : Bool :=
  decide (x.getD 0 ≠ 0)

/-- The crop rectangle, `CropperPosition`. -/
structure CropperPosition where
  x1 : ℚ
  y1 : ℚ
  x2 : ℚ
  y2 : ℚ
deriving DecidableEq

/-- What the cropper state reads of its `LoadedImage`: the transformed
variant's size (`loadedImage.transformed.size`) and whether its bitmap has
finished loading (`loadedImage.transformed.image.complete`). -/
structure LoadedImageModel where
  transformedSize : Dimensions
  transformedComplete : Bool
deriving DecidableEq

/-- The mutable fields of the `CropperState` class (cropper.state.ts lines
5-44) that its embedded methods touch. -/
structure CropperState where
  cropper : CropperPosition := { x1 := 0, y1 := 0, x2 := 0, y2 := 0 }
  loadedImage : Option LoadedImageModel := none
  maxSize : Dimensions := { width := 0, height := 0 }
  options : CropperOptions := {}
  cropperScaledMinWidth : ℚ := 20
  cropperScaledMinHeight : ℚ := 20
  cropperScaledMaxWidth : ℚ := 20
  cropperScaledMaxHeight : ℚ := 20
deriving DecidableEq

/-- The guard `!this.loadedImage?.transformed.image.complete` at line 68
(the `!this.maxSize` half of that test is always false: `maxSize` is a
signal object, hence always truthy). -/
def imageComplete (s : CropperState) : Bool :=
  match s.loadedImage with
  | some li => li.transformedComplete
  | none => false

/-- The value assigned by `setCropperScaledMinWidth` (lines 121-125). -/
def scaledMinWidthCalc (o : CropperOptions) (transformedSize maxSize : Dimensions) : ℚ :=
  if o.cropperMinWidth > 0 then
    max 20 (o.cropperMinWidth / transformedSize.width * maxSize.width)
  else 20

/-- The value assigned by `setCropperScaledMinHeight` (lines 127-138);
`minWidth` is the freshly assigned scaled minimum width. -/
def scaledMinHeightCalc (o : CropperOptions) (transformedSize maxSize : Dimensions)
    (minWidth : ℚ) : ℚ :=
  if o.maintainAspectRatio then
    max 20 (minWidth / o.aspectRatio)
  else if o.cropperMinHeight > 0 then
    max 20 (o.cropperMinHeight / transformedSize.height * maxSize.height)
  else 20

/-- `CropperState.setCropperScaledMinSize` (lines 111-119); the guard
`this.loadedImage?.transformed.size` is truthy exactly when a loaded image
is present. -/
def setCropperScaledMinSize (s : CropperState) : CropperState :=
  match s.loadedImage with
  | some li =>
      let w := scaledMinWidthCalc s.options li.transformedSize s.maxSize
      { s with cropperScaledMinWidth := w
               cropperScaledMinHeight := scaledMinHeightCalc s.options li.transformedSize s.maxSize w }
  | none =>
      { s with cropperScaledMinWidth := 20, cropperScaledMinHeight := 20 }

/-- The pair of values assigned by `setCropperScaledMaxSize` (lines 140-156)
when an image is loaded: first component the scaled maximum width, second
the scaled maximum height. -/
def scaledMaxCalc (o : CropperOptions) (transformedSize maxSize : Dimensions) : ℚ × ℚ :=
  let ratio := transformedSize.width / maxSize.width
  let w0 := if o.cropperMaxWidth > 20 then o.cropperMaxWidth / ratio else maxSize.width
  let h0 := if o.cropperMaxHeight > 20 then o.cropperMaxHeight / ratio else maxSize.height
  if o.maintainAspectRatio then
    if w0 > h0 * o.aspectRatio then (h0 * o.aspectRatio, h0)
    else if w0 < h0 * o.aspectRatio then (w0, w0 / o.aspectRatio)
    else (w0, h0)
  else (w0, h0)

/-- `CropperState.setCropperScaledMaxSize` (lines 140-156). -/
def setCropperScaledMaxSize (s : CropperState) : CropperState :=
  match s.loadedImage with
  | some li =>
      let wh := scaledMaxCalc s.options li.transformedSize s.maxSize
      { s with cropperScaledMaxWidth := wh.1, cropperScaledMaxHeight := wh.2 }
  | none =>
      { s with cropperScaledMaxWidth := s.maxSize.width
               cropperScaledMaxHeight := s.maxSize.height }

/-- `CropperState.aspectRatioIsCorrect` (lines 181-185): exact equality of
the current rectangle's width/height quotient with the configured aspect
ratio. -/
def aspectRatioIsCorrect (s : CropperState) : Bool :=
  decide ((s.cropper.x2 - s.cropper.x1) / (s.cropper.y2 - s.cropper.y1) = s.options.aspectRatio)

/-- `CropperState.maxSizeCropperPosition` (lines 198-205). -/
def maxSizeCropperPosition (s : CropperState) : CropperPosition :=
  { x1 := 0, y1 := 0, x2 := s.maxSize.width, y2 := s.maxSize.height }

/-- `CropperState.setMaxSize` (lines 105-109). -/
def setMaxSize (s : CropperState) (width height : ℚ) : CropperState :=
  setCropperScaledMaxSize (setCropperScaledMinSize
    { s with maxSize := { width := width, height := height } })

/-- `CropperState.resizeCropperPosition` (lines 187-196): rescale the
current rectangle per axis by the new/old max-size ratio, unless the max
size did not change at all. -/
def resizeCropperPosition (s : CropperState) (oldMaxSize : Dimensions) : CropperState :=
  if oldMaxSize.width ≠ s.maxSize.width ∨ oldMaxSize.height ≠ s.maxSize.height then
    { s with cropper :=
        { x1 := s.cropper.x1 * s.maxSize.width / oldMaxSize.width
          y1 := s.cropper.y1 * s.maxSize.height / oldMaxSize.height
          x2 := s.cropper.x2 * s.maxSize.width / oldMaxSize.width
          y2 := s.cropper.y2 * s.maxSize.height / oldMaxSize.height } }
  else s

/-- Everything `setOptions` determines by itself: the state as left behind
(including mutations made before an exception), whether the validation
exception was thrown, whether the position was flagged possibly changed
(which is what sends it through the external clamping collaborator), and
whether the full-frame reset was applied. -/
structure StepResult where
  state : CropperState
  threw : Bool
  possiblyChanged : Bool
  didReset : Bool
deriving DecidableEq

/-- `CropperState.setOptions` (lines 61-97) up to the final call into the
external clamp `checkCropperPosition` (which lives in
`utils/cropper-position.utils.ts`, outside the given sources, and is
therefore kept outside this function; see `setOptions` below).  The merge
happens first, then `validateOptions` (lines 99-103) may throw, with the
merged options already stored; JavaScript truthiness decides the branch
tests on the partial's fields. -/
def setOptionsCore (s : CropperState) (p : PartialCropperOptions) : StepResult :=
  let m := mergeOptions s.options p
  let s1 : CropperState := { s with options := m }
  if m.maintainAspectRatio && decide (m.aspectRatio = 0) then
    { state := s1, threw := true, possiblyChanged := false, didReset := false }
  else if !imageComplete s1 then
    { state := s1, threw := false, possiblyChanged := false, didReset := false }
  else if (m.maintainAspectRatio && optTruthy p.aspectRatio) || p.maintainAspectRatio.isSome then
    let s2 := setCropperScaledMaxSize (setCropperScaledMinSize s1)
    if m.maintainAspectRatio && (m.resetCropOnAspectRatioChange || !aspectRatioIsCorrect s2) then
      { state := { s2 with cropper := maxSizeCropperPosition s2 }
        threw := false, possiblyChanged := true, didReset := true }
    else
      { state := s2, threw := false, possiblyChanged := false, didReset := false }
  else
    let r1 := if optTruthy p.cropperMinWidth || optTruthy p.cropperMinHeight then
        (setCropperScaledMinSize s1, true) else (s1, false)
    let r2 := if optTruthy p.cropperMaxWidth || optTruthy p.cropperMaxHeight then
        (setCropperScaledMaxSize r1.1, true) else (r1.1, false)
    let pc3 := optTruthy p.cropperStaticWidth || optTruthy p.cropperStaticHeight
    { state := r2.1, threw := false, possiblyChanged := r1.2 || r2.2 || pc3, didReset := false }

/-- `CropperState.setOptions` in full.  The final re-clamp
`this.cropper.update(c => checkCropperPosition(c, this, false))` calls a
function outside the given sources, so the clamp is a parameter; the boolean
returned is whether the validation exception was thrown (in which case the
returned state is what the exception left behind). -/
def setOptions (clamp : CropperPosition → CropperState → CropperPosition)
    (s : CropperState) (p : PartialCropperOptions) : CropperState × Bool :=
  let r := setOptionsCore s p
  if r.threw then (r.state, true)
  else if r.possiblyChanged then
    ({ r.state with cropper := clamp r.state.cropper r.state }, false)
  else (r.state, false)

/-- A concrete loaded state used by witnesses: a 400×400 transformed image
shown in a 200×200 frame, aspect ratio 2 with a configured maximum width of
100 natural pixels. -/
def exampleMaxClampState : CropperState :=
  { loadedImage := some ⟨⟨400, 400⟩, true⟩
    maxSize := ⟨200, 200⟩
    options := { aspectRatio := 2, cropperMaxWidth := 100 } }

/-- A concrete loaded state used by witnesses: a 100×100 transformed image
shown full size, with the default options. -/
def exampleLoadedState : CropperState :=
  { cropper := ⟨0, 0, 100, 100⟩
    loadedImage := some ⟨⟨100, 100⟩, true⟩
    maxSize := ⟨100, 100⟩ }

/-- The spec's resize example: position `{50,50,150,150}` in a 200×200
frame, no image loaded. -/
def exampleResizeState : CropperState :=
  { cropper := ⟨50, 50, 150, 150⟩
    maxSize := ⟨200, 200⟩ }

lemma odd_iff_emod_ne_zero (r : ℤ) : Odd r ↔ r % 2 ≠ 0 := by
  rw [Int.odd_iff]
  omega

/-- C1.  `getTransformedSize` returns, for original size `(w,h)`: with
`containWithinAspectRatio` set and aspect ratio `a > 0`,
`{max(h, w*a), max(w, h/a)}` for odd effective rotation and
`{max(w, h*a), max(h, w/a)}` for even; without it, `{h, w}` for odd and
`{w, h}` for even. -/
theorem getTransformedSize_spec (w h : ℚ) (exif : ExifTransform)
    (o : LoadImageOptions) (a : ℚ) :
    (o.containWithinAspectRatio = true → o.aspectRatio = some a → 0 < a →
      ((Odd (o.canvasRotation.getD 0 + exif.rotate) →
          getTransformedSize ⟨w, h⟩ exif o = ⟨max h (w * a), max w (h / a)⟩)
        ∧ (¬ Odd (o.canvasRotation.getD 0 + exif.rotate) →
          getTransformedSize ⟨w, h⟩ exif o = ⟨max w (h * a), max h (w / a)⟩)))
  ∧ (o.containWithinAspectRatio = false →
      ((Odd (o.canvasRotation.getD 0 + exif.rotate) →
          getTransformedSize ⟨w, h⟩ exif o = ⟨h, w⟩)
        ∧ (¬ Odd (o.canvasRotation.getD 0 + exif.rotate) →
          getTransformedSize ⟨w, h⟩ exif o = ⟨w, h⟩))) := by
  have hparity := odd_iff_emod_ne_zero (o.canvasRotation.getD 0 + exif.rotate)
  constructor
  · intro hc ha _
    constructor
    · intro hO
      simp [getTransformedSize, hc, ha, hparity.mp hO]
    · intro hO
      have h0 : (o.canvasRotation.getD 0 + exif.rotate) % 2 = 0 := by
        by_contra hne
        exact hO (hparity.mpr hne)
      simp [getTransformedSize, hc, ha, h0]
  · intro hc
    constructor
    · intro hO
      simp [getTransformedSize, hc, hparity.mp hO]
    · intro hO
      have h0 : (o.canvasRotation.getD 0 + exif.rotate) % 2 = 0 := by
        by_contra hne
        exact hO (hparity.mpr hne)
      simp [getTransformedSize, hc, h0]

/-- C3 counterexample.  Starting from the default state, the failing call
`setOptions({aspectRatio: 0})` throws, yet afterwards the stored options are
no longer the prior options: the merge at lines 62-65 runs before
`validateOptions`, so the invalid merged options are already stored when the
exception leaves `setOptions`. -/
theorem setOptions_invalid_mutates_options :
    (setOptionsCore {} { aspectRatio := some 0 }).threw = true
  ∧ (setOptionsCore {} { aspectRatio := some 0 }).state.options
      ≠ ({} : CropperState).options := by
  decide

/-- C3 amended.  When the merged options are invalid (`maintainAspectRatio`
with a falsy `aspectRatio`), `setOptions` throws before any cropper-position
or scaled-size mutation: the state after the failed call equals the prior
state except that the merged (invalid) options are already stored. -/
theorem setOptions_invalid_leaves_rest_intact
    (clamp : CropperPosition → CropperState → CropperPosition)
    (s : CropperState) (p : PartialCropperOptions)
    (hbad : (mergeOptions s.options p).maintainAspectRatio = true
      ∧ (mergeOptions s.options p).aspectRatio = 0) :
    setOptions clamp s p = ({ s with options := mergeOptions s.options p }, true) := by
  simp [setOptions, setOptionsCore, hbad.1, hbad.2]

/-- C3 witness: the amended theorem applied to the spec's own example, a
default state receiving `{aspectRatio: 0}`. -/
theorem setOptions_invalid_leaves_rest_intact_witness :
    setOptions (fun c _ => c) {} { aspectRatio := some 0 }
      = ({ ({} : CropperState) with
            options := mergeOptions ({} : CropperState).options { aspectRatio := some 0 } },
          true) :=
  setOptions_invalid_leaves_rest_intact (fun c _ => c) {} { aspectRatio := some 0 }
    ⟨by decide, by decide⟩

/-- C4 counterexample.  With default prior options (`maintainAspectRatio`
true), merging `{aspectRatio: -1}` yields maintained aspect ratio with a
strictly negative aspect ratio, yet no exception is thrown: the check at
line 100 is JavaScript truthiness (`!this.options.aspectRatio`), which a
negative number passes. -/
theorem setOptions_negative_aspect_no_throw :
    (setOptionsCore {} { aspectRatio := some (-1) }).threw = false
  ∧ (mergeOptions ({} : CropperState).options
        { aspectRatio := some (-1) }).maintainAspectRatio = true
  ∧ (mergeOptions ({} : CropperState).options { aspectRatio := some (-1) }).aspectRatio < 0 := by
  decide

/-- C4 amended.  `setOptions` throws if and only if, after the merge,
`maintainAspectRatio` is true and `aspectRatio` equals 0 (the falsy case);
a strictly negative aspect ratio does not throw. -/
theorem setOptions_throw_iff (s : CropperState) (p : PartialCropperOptions) :
    (setOptionsCore s p).threw = true
      ↔ ((mergeOptions s.options p).maintainAspectRatio = true
          ∧ (mergeOptions s.options p).aspectRatio = 0) := by
  by_cases hP : (mergeOptions s.options p).maintainAspectRatio = true
      ∧ (mergeOptions s.options p).aspectRatio = 0
  · simp [setOptionsCore, hP.1, hP.2, hP]
  · have hb : ((mergeOptions s.options p).maintainAspectRatio
        && decide ((mergeOptions s.options p).aspectRatio = 0)) = false := by
      rcases Decidable.not_and_iff_or_not.mp hP with hm | ha
      · simp [Bool.eq_false_iff.mpr hm]
      · simp [decide_eq_false ha]
    simp only [setOptionsCore, hb, Bool.false_eq_true, if_false]
    constructor
    · intro hthrew
      exfalso
      revert hthrew
      split
      · simp
      · split
        · split
          · simp
          · simp
        · simp
    · intro hc
      exact absurd hc hP

/-- C2 counterexample.  With `canvasRotation = 4`, no exif rotation, no
flip, no contain mode and no forced transform, the effective rotation is
`4`, which is `0 mod 4` — yet `transformLoadedImage` re-renders instead of
reusing the original: the skip test at line 128 compares the raw sum with
`0`, not the sum modulo 4. -/
theorem transformLoadedImage_modFour_not_reused :
    ((4 : ℤ) + 0) % 4 = 0
  ∧ transformLoadedImage ⟨⟨1, 1, ⟨10, 20⟩⟩, ⟨0, false⟩⟩
      { canvasRotation := some 4 } false = .rendered ⟨10, 20⟩ := by
  decide

/-- C2 amended.  `transformLoadedImage` skips the re-render and returns the
original variant, aliased, as the transformed variant exactly when no
transform is forced, the raw sum `canvasRotation + exif rotate` equals 0
(not merely 0 modulo 4), the exif flip is false and
`containWithinAspectRatio` is false; in every other case a fresh variant is
rendered at the computed target size. -/
theorem transformLoadedImage_reuse_iff (li : PartialLoadedImage)
    (o : LoadImageOptions) (force : Bool) :
    (transformLoadedImage li o force
        = .reused li.original li.original li.exifTransform
      ↔ (force = false ∧ o.canvasRotation.getD 0 + li.exifTransform.rotate = 0
          ∧ li.exifTransform.flip = false ∧ o.containWithinAspectRatio = false))
  ∧ (¬ (force = false ∧ o.canvasRotation.getD 0 + li.exifTransform.rotate = 0
          ∧ li.exifTransform.flip = false ∧ o.containWithinAspectRatio = false) →
      transformLoadedImage li o force
        = .rendered (getTransformedSize li.original.size li.exifTransform o)) := by
  have hb : ((!force && decide (o.canvasRotation.getD 0 + li.exifTransform.rotate = 0)
        && !li.exifTransform.flip && !o.containWithinAspectRatio) = true)
      ↔ (force = false ∧ o.canvasRotation.getD 0 + li.exifTransform.rotate = 0
          ∧ li.exifTransform.flip = false ∧ o.containWithinAspectRatio = false) := by
    simp only [Bool.and_eq_true, Bool.not_eq_true', decide_eq_true_eq]
    tauto
  by_cases hP : force = false ∧ o.canvasRotation.getD 0 + li.exifTransform.rotate = 0
      ∧ li.exifTransform.flip = false ∧ o.containWithinAspectRatio = false
  · constructor
    · simp [transformLoadedImage, hb.mpr hP, hP]
    · intro hn
      exact absurd hP hn
  · have hbf : (!force && decide (o.canvasRotation.getD 0 + li.exifTransform.rotate = 0)
        && !li.exifTransform.flip && !o.containWithinAspectRatio) = false := by
      rw [← Bool.not_eq_true]
      exact fun hh => hP (hb.mp hh)
    constructor
    · simp [transformLoadedImage, hbf, hP]
    · intro _
      simp [transformLoadedImage, hbf]

/-- The unanchored regular-expression test matches at some position of the
string if and only if some drop of the character list matches at its
head. -/
lemma imageTypeSearch_iff (s : List Char) :
    imageTypeSearch s = true ↔ ∃ n, imageTypeMatchHere (s.drop n) = true := by
  induction s with
  | nil =>
      constructor
      · intro hmatch
        exact ⟨0, hmatch⟩
      · rintro ⟨n, hn⟩
        simpa using hn
  | cons c cs ih =>
      simp only [imageTypeSearch, Bool.or_eq_true]
      constructor
      · rintro (hmatch | hsearch)
        · exact ⟨0, hmatch⟩
        · obtain ⟨n, hn⟩ := ih.mp hsearch
          exact ⟨n + 1, hn⟩
      · rintro ⟨n, hn⟩
        cases n with
        | zero => exact Or.inl hn
        | succ k => exact Or.inr (ih.mpr ⟨k, hn⟩)

/-- C8 counterexample.  The claim holds the check to be case-insensitive and
names `IMAGE/PNG` as accepted; the regular expression at line 32 carries no
`i` flag, so the load of a file declared `IMAGE/PNG` is rejected before any
decode attempt. -/
theorem checkImageType_uppercase_rejected :
    checkImageTypeAndLoadImageFromArrayBuffer "IMAGE/PNG"
      = .rejected "Invalid image type" := by
  decide

/-- C8 amended.  With `checkImageType` enabled, a load proceeds to decode
exactly when the declared MIME string contains — case-sensitively and at any
position, not only as a prefix — a match of
`image/(png|jpg|jpeg|heic|bmp|gif|tiff|svg|webp|x-icon|vnd.microsoft.icon)`,
the unescaped dots of `vnd.microsoft.icon` matching any character; every
other declared type is rejected before any decode attempt. -/
theorem checkImageType_iff_substring (type : String) :
    (checkImageTypeAndLoadImageFromArrayBuffer type = .proceedsToDecode type
      ↔ imageTypeSubstringMatch type)
  ∧ (¬ imageTypeSubstringMatch type →
      checkImageTypeAndLoadImageFromArrayBuffer type = .rejected "Invalid image type") := by
  have hiff := imageTypeSearch_iff type.toList
  simp only [String.toList] at hiff
  constructor
  · constructor
    · intro hp
      cases hv : imageTypeSearch type.data with
      | false =>
          exfalso
          rw [checkImageTypeAndLoadImageFromArrayBuffer] at hp
          simp [isValidImageType, String.toList, hv] at hp
      | true =>
          obtain ⟨n, hn⟩ := hiff.mp hv
          exact ⟨n, hn⟩
    · intro hm
      obtain ⟨n, hn⟩ := hm
      simp only [String.toList] at hn
      have hv := hiff.mpr ⟨n, hn⟩
      simp [checkImageTypeAndLoadImageFromArrayBuffer, isValidImageType, String.toList, hv]
  · intro hm
    have hv : imageTypeSearch type.data = false := by
      cases hh : imageTypeSearch type.data with
      | false => rfl
      | true =>
          obtain ⟨n, hn⟩ := hiff.mp hh
          exact absurd ⟨n, by simpa [String.toList] using hn⟩ hm
    simp [checkImageTypeAndLoadImageFromArrayBuffer, isValidImageType, String.toList, hv]

lemma setCropperScaledMinSize_parts (t : CropperState) :
    (setCropperScaledMinSize t).cropper = t.cropper
  ∧ (setCropperScaledMinSize t).options = t.options
  ∧ (setCropperScaledMinSize t).maxSize = t.maxSize
  ∧ (setCropperScaledMinSize t).loadedImage = t.loadedImage
  ∧ (setCropperScaledMinSize t).cropperScaledMaxWidth = t.cropperScaledMaxWidth
  ∧ (setCropperScaledMinSize t).cropperScaledMaxHeight = t.cropperScaledMaxHeight := by
  cases h : t.loadedImage <;> simp [setCropperScaledMinSize, h]

lemma setCropperScaledMaxSize_parts (t : CropperState) :
    (setCropperScaledMaxSize t).cropper = t.cropper
  ∧ (setCropperScaledMaxSize t).options = t.options
  ∧ (setCropperScaledMaxSize t).maxSize = t.maxSize
  ∧ (setCropperScaledMaxSize t).loadedImage = t.loadedImage
  ∧ (setCropperScaledMaxSize t).cropperScaledMinWidth = t.cropperScaledMinWidth
  ∧ (setCropperScaledMaxSize t).cropperScaledMinHeight = t.cropperScaledMinHeight := by
  cases h : t.loadedImage <;> simp [setCropperScaledMaxSize, h]

lemma recompute_min_then_max (t : CropperState) (li : LoadedImageModel)
    (h : t.loadedImage = some li) :
    (setCropperScaledMaxSize (setCropperScaledMinSize t)).cropper = t.cropper
  ∧ (setCropperScaledMaxSize (setCropperScaledMinSize t)).options = t.options
  ∧ (setCropperScaledMaxSize (setCropperScaledMinSize t)).maxSize = t.maxSize
  ∧ (setCropperScaledMaxSize (setCropperScaledMinSize t)).loadedImage = t.loadedImage
  ∧ (setCropperScaledMaxSize (setCropperScaledMinSize t)).cropperScaledMinWidth
      = scaledMinWidthCalc t.options li.transformedSize t.maxSize
  ∧ (setCropperScaledMaxSize (setCropperScaledMinSize t)).cropperScaledMinHeight
      = scaledMinHeightCalc t.options li.transformedSize t.maxSize
          (scaledMinWidthCalc t.options li.transformedSize t.maxSize)
  ∧ (setCropperScaledMaxSize (setCropperScaledMinSize t)).cropperScaledMaxWidth
      = (scaledMaxCalc t.options li.transformedSize t.maxSize).1
  ∧ (setCropperScaledMaxSize (setCropperScaledMinSize t)).cropperScaledMaxHeight
      = (scaledMaxCalc t.options li.transformedSize t.maxSize).2 := by
  simp [setCropperScaledMinSize, setCropperScaledMaxSize, h]

/-- C6.  `setMaxSize(w,h)` followed by `resizeCropperPosition` with the old
max size (the combination the spec describes as the resize transition)
replaces `maxSize`, recomputes the scaled minimum and maximum sizes against
the new max size, and rescales the position proportionally per axis. -/
theorem setMaxSize_resize_spec (s : CropperState) (w h : ℚ)
    (hw : s.maxSize.width ≠ 0) (hh : s.maxSize.height ≠ 0) :
    (resizeCropperPosition (setMaxSize s w h) s.maxSize).maxSize = ⟨w, h⟩
  ∧ (resizeCropperPosition (setMaxSize s w h) s.maxSize).cropper
      = ⟨s.cropper.x1 * w / s.maxSize.width, s.cropper.y1 * h / s.maxSize.height,
         s.cropper.x2 * w / s.maxSize.width, s.cropper.y2 * h / s.maxSize.height⟩
  ∧ (∀ li, s.loadedImage = some li →
        (resizeCropperPosition (setMaxSize s w h) s.maxSize).cropperScaledMinWidth
          = scaledMinWidthCalc s.options li.transformedSize ⟨w, h⟩
      ∧ (resizeCropperPosition (setMaxSize s w h) s.maxSize).cropperScaledMinHeight
          = scaledMinHeightCalc s.options li.transformedSize ⟨w, h⟩
              (scaledMinWidthCalc s.options li.transformedSize ⟨w, h⟩)
      ∧ (resizeCropperPosition (setMaxSize s w h) s.maxSize).cropperScaledMaxWidth
          = (scaledMaxCalc s.options li.transformedSize ⟨w, h⟩).1
      ∧ (resizeCropperPosition (setMaxSize s w h) s.maxSize).cropperScaledMaxHeight
          = (scaledMaxCalc s.options li.transformedSize ⟨w, h⟩).2) := by
  have hparts := recompute_min_then_max
    { s with maxSize := { width := w, height := h } }
  have hmax : (setMaxSize s w h).maxSize = ⟨w, h⟩ := by
    cases hli : s.loadedImage <;>
      simp [setMaxSize, setCropperScaledMinSize, setCropperScaledMaxSize, hli]
  have hcrop : (setMaxSize s w h).cropper = s.cropper := by
    cases hli : s.loadedImage <;>
      simp [setMaxSize, setCropperScaledMinSize, setCropperScaledMaxSize, hli]
  by_cases hchg : s.maxSize.width ≠ (setMaxSize s w h).maxSize.width
      ∨ s.maxSize.height ≠ (setMaxSize s w h).maxSize.height
  · have hres : resizeCropperPosition (setMaxSize s w h) s.maxSize
        = { setMaxSize s w h with cropper :=
            { x1 := (setMaxSize s w h).cropper.x1 * (setMaxSize s w h).maxSize.width / s.maxSize.width
              y1 := (setMaxSize s w h).cropper.y1 * (setMaxSize s w h).maxSize.height / s.maxSize.height
              x2 := (setMaxSize s w h).cropper.x2 * (setMaxSize s w h).maxSize.width / s.maxSize.width
              y2 := (setMaxSize s w h).cropper.y2 * (setMaxSize s w h).maxSize.height / s.maxSize.height } } := by
      rw [resizeCropperPosition, if_pos hchg]
    refine ⟨by rw [hres]; exact hmax, by rw [hres]; simp [hmax, hcrop], ?_⟩
    intro li hli
    have hp := hparts li (by simpa using hli)
    rw [hres]
    simp only [setMaxSize] at hp ⊢
    exact ⟨hp.2.2.2.2.1, hp.2.2.2.2.2.1, hp.2.2.2.2.2.2.1, hp.2.2.2.2.2.2.2⟩
  · have heqw : s.maxSize.width = w := by
      rw [hmax] at hchg
      push_neg at hchg
      exact hchg.1
    have heqh : s.maxSize.height = h := by
      rw [hmax] at hchg
      push_neg at hchg
      exact hchg.2
    have hres : resizeCropperPosition (setMaxSize s w h) s.maxSize = setMaxSize s w h := by
      rw [resizeCropperPosition, if_neg hchg]
    refine ⟨by rw [hres]; exact hmax, ?_, ?_⟩
    · rw [hres, hcrop, heqw, heqh]
      rw [mul_div_cancel_right₀ _ (heqw ▸ hw), mul_div_cancel_right₀ _ (heqh ▸ hh),
        mul_div_cancel_right₀ _ (heqw ▸ hw), mul_div_cancel_right₀ _ (heqh ▸ hh)]
    · intro li hli
      have hp := hparts li (by simpa using hli)
      rw [hres]
      simp only [setMaxSize] at hp ⊢
      exact ⟨hp.2.2.2.2.1, hp.2.2.2.2.2.1, hp.2.2.2.2.2.2.1, hp.2.2.2.2.2.2.2⟩

/-- C6 witness: the spec's own example.  Resizing `maxSize` from
`{200,200}` to `{400,200}` scales the position `{50,50,150,150}` to
`{100,50,300,150}`. -/
theorem setMaxSize_resize_spec_witness :
    (resizeCropperPosition (setMaxSize exampleResizeState 400 200)
        exampleResizeState.maxSize).cropper = ⟨100, 50, 300, 150⟩ := by
  have hmain := setMaxSize_resize_spec exampleResizeState 400 200
    (by norm_num [exampleResizeState]) (by norm_num [exampleResizeState])
  rw [hmain.2.1]
  norm_num [exampleResizeState]

lemma scaledMinWidthCalc_ge (o : CropperOptions) (t m : Dimensions) :
    20 ≤ scaledMinWidthCalc o t m := by
  unfold scaledMinWidthCalc
  split
  · exact le_max_left _ _
  · exact le_rfl

lemma scaledMinHeightCalc_ge (o : CropperOptions) (t m : Dimensions) (w : ℚ) :
    20 ≤ scaledMinHeightCalc o t m w := by
  unfold scaledMinHeightCalc
  split
  · exact le_max_left _ _
  · split
    · exact le_max_left _ _
    · exact le_rfl

/-- C7.  `setCropperScaledMinSize` computes, when an image is loaded, the
scaled minimum width as `max(20, cropperMinWidth / transformedW × maxW)`
when `cropperMinWidth > 0` and `20` otherwise; the scaled minimum height as
`max(20, scaledMinWidth / aspectRatio)` under `maintainAspectRatio`, else
the analogous formula from `cropperMinHeight` when positive, else `20`;
both results are always at least 20, and with no image loaded both default
to 20. -/
theorem setCropperScaledMinSize_spec (s : CropperState) :
    ((∀ li, s.loadedImage = some li →
        (setCropperScaledMinSize s).cropperScaledMinWidth
          = (if s.options.cropperMinWidth > 0 then
              max 20 (s.options.cropperMinWidth / li.transformedSize.width * s.maxSize.width)
             else 20)
      ∧ (setCropperScaledMinSize s).cropperScaledMinHeight
          = (if s.options.maintainAspectRatio then
              max 20 ((setCropperScaledMinSize s).cropperScaledMinWidth / s.options.aspectRatio)
             else if s.options.cropperMinHeight > 0 then
              max 20 (s.options.cropperMinHeight / li.transformedSize.height * s.maxSize.height)
             else 20))
    ∧ (s.loadedImage = none →
        (setCropperScaledMinSize s).cropperScaledMinWidth = 20
      ∧ (setCropperScaledMinSize s).cropperScaledMinHeight = 20))
  ∧ (20 ≤ (setCropperScaledMinSize s).cropperScaledMinWidth
     ∧ 20 ≤ (setCropperScaledMinSize s).cropperScaledMinHeight) := by
  refine ⟨⟨fun li heq => ?_, fun heq => ?_⟩, ?_, ?_⟩
  · constructor
    · simp [setCropperScaledMinSize, heq, scaledMinWidthCalc]
    · simp [setCropperScaledMinSize, heq, scaledMinWidthCalc, scaledMinHeightCalc]
  · simp [setCropperScaledMinSize, heq]
  · cases hli : s.loadedImage with
    | none => simp [setCropperScaledMinSize, hli]
    | some li =>
        simp only [setCropperScaledMinSize, hli]
        exact scaledMinWidthCalc_ge _ _ _
  · cases hli : s.loadedImage with
    | none => simp [setCropperScaledMinSize, hli]
    | some li =>
        simp only [setCropperScaledMinSize, hli]
        exact scaledMinHeightCalc_ge _ _ _ _

lemma clampPair_eq (w0 h0 a : ℚ) (ha : a ≠ 0) :
    (if w0 > h0 * a then (h0 * a, h0)
      else if w0 < h0 * a then (w0, w0 / a) else (w0, h0)).1
  = (if w0 > h0 * a then (h0 * a, h0)
      else if w0 < h0 * a then (w0, w0 / a) else (w0, h0)).2 * a := by
  by_cases hgt : w0 > h0 * a
  · simp [hgt]
  · by_cases hlt : w0 < h0 * a
    · simp [hgt, hlt, div_mul_cancel₀ _ ha]
    · simp only [hgt, hlt, if_false]
      exact le_antisymm (not_lt.mp hgt) (not_lt.mp hlt)

lemma scaledMaxCalc_aspect_eq (o : CropperOptions) (t m : Dimensions)
    (hm : o.maintainAspectRatio = true) (ha : o.aspectRatio ≠ 0) :
    (scaledMaxCalc o t m).1 = (scaledMaxCalc o t m).2 * o.aspectRatio := by
  simp only [scaledMaxCalc, hm, if_true]
  exact clampPair_eq _ _ _ ha

/-- C9.  After `setCropperScaledMaxSize` in a state with a loaded image,
`maintainAspectRatio` true and a positive aspect ratio, the scaled maxima
satisfy `cropperScaledMaxWidth = cropperScaledMaxHeight × aspectRatio`: the
clamp establishes the equality in all three comparison cases. -/
theorem setCropperScaledMaxSize_aspect_eq (s : CropperState) (li : LoadedImageModel)
    (hli : s.loadedImage = some li)
    (hm : s.options.maintainAspectRatio = true)
    (ha : 0 < s.options.aspectRatio) :
    (setCropperScaledMaxSize s).cropperScaledMaxWidth
      = (setCropperScaledMaxSize s).cropperScaledMaxHeight * s.options.aspectRatio := by
  simp only [setCropperScaledMaxSize, hli]
  exact scaledMaxCalc_aspect_eq s.options li.transformedSize s.maxSize hm (ne_of_gt ha)

/-- C9 witness: a concrete loaded state with a small configured maximum
width, where the clamp shrinks the height. -/
theorem setCropperScaledMaxSize_aspect_eq_witness :
    (setCropperScaledMaxSize exampleMaxClampState).cropperScaledMaxWidth
      = (setCropperScaledMaxSize exampleMaxClampState).cropperScaledMaxHeight
        * exampleMaxClampState.options.aspectRatio :=
  setCropperScaledMaxSize_aspect_eq exampleMaxClampState
    ⟨⟨400, 400⟩, true⟩ rfl rfl (by norm_num [exampleMaxClampState])

lemma setOptionsCore_threw_eq (s : CropperState) (p : PartialCropperOptions) :
    (setOptionsCore s p).threw
      = ((mergeOptions s.options p).maintainAspectRatio
          && decide ((mergeOptions s.options p).aspectRatio = 0)) := by
  simp only [setOptionsCore]
  split
  next hcond => simp [hcond]
  next hcond =>
    rw [Bool.not_eq_true] at hcond
    rw [hcond]
    split
    · rfl
    · split
      · split
        · rfl
        · rfl
      · rfl

/-- C5.  For a ready state, a non-throwing `setOptions` whose partial
touches `aspectRatio` while the merged `maintainAspectRatio` is true, or
contains the `maintainAspectRatio` key, recomputes both scaled minimum and
scaled maximum sizes, and sets the position to the full-frame rectangle
`{0, 0, maxSize.width, maxSize.height}` exactly when the merged
`maintainAspectRatio` is true and either `resetCropOnAspectRatioChange` is
true or the current rectangle's `(x2-x1)/(y2-y1)` is not exactly the merged
aspect ratio; otherwise the position is left as it was (before the final
external re-clamp, which runs only when the position was flagged as
possibly changed). -/
theorem setOptions_aspect_branch (s : CropperState) (p : PartialCropperOptions)
    (li : LoadedImageModel)
    (hli : s.loadedImage = some li) (hcomp : li.transformedComplete = true)
    (hok : (setOptionsCore s p).threw = false)
    (htrig : ((mergeOptions s.options p).maintainAspectRatio = true
        ∧ p.aspectRatio.isSome = true) ∨ p.maintainAspectRatio.isSome = true) :
    ((setOptionsCore s p).state.cropperScaledMinWidth
        = scaledMinWidthCalc (mergeOptions s.options p) li.transformedSize s.maxSize
      ∧ (setOptionsCore s p).state.cropperScaledMinHeight
        = scaledMinHeightCalc (mergeOptions s.options p) li.transformedSize s.maxSize
            (scaledMinWidthCalc (mergeOptions s.options p) li.transformedSize s.maxSize)
      ∧ (setOptionsCore s p).state.cropperScaledMaxWidth
        = (scaledMaxCalc (mergeOptions s.options p) li.transformedSize s.maxSize).1
      ∧ (setOptionsCore s p).state.cropperScaledMaxHeight
        = (scaledMaxCalc (mergeOptions s.options p) li.transformedSize s.maxSize).2)
  ∧ ((setOptionsCore s p).didReset = true
      ↔ ((mergeOptions s.options p).maintainAspectRatio = true
          ∧ ((mergeOptions s.options p).resetCropOnAspectRatioChange = true
             ∨ (s.cropper.x2 - s.cropper.x1) / (s.cropper.y2 - s.cropper.y1)
                ≠ (mergeOptions s.options p).aspectRatio)))
  ∧ ((setOptionsCore s p).didReset = true →
      (setOptionsCore s p).state.cropper = ⟨0, 0, s.maxSize.width, s.maxSize.height⟩)
  ∧ ((setOptionsCore s p).didReset = false →
      (setOptionsCore s p).state.cropper = s.cropper) := by
  have hval : ((mergeOptions s.options p).maintainAspectRatio
      && decide ((mergeOptions s.options p).aspectRatio = 0)) = false := by
    rw [← setOptionsCore_threw_eq]
    exact hok
  have hcompl : imageComplete { s with options := mergeOptions s.options p } = true := by
    simp [imageComplete, hli, hcomp]
  have htrigb : (((mergeOptions s.options p).maintainAspectRatio && optTruthy p.aspectRatio)
      || p.maintainAspectRatio.isSome) = true := by
    rcases htrig with ⟨hm, hsome⟩ | hkey
    · obtain ⟨a, ha⟩ := Option.isSome_iff_exists.mp hsome
      have hane : a ≠ 0 := by
        intro ha0
        rw [hm, Bool.true_and] at hval
        rw [decide_eq_false_iff_not] at hval
        exact hval (by simp [mergeOptions, ha, ha0])
      have : optTruthy p.aspectRatio = true := by
        simp [optTruthy, ha, hane]
      simp [hm, this]
    · simp [hkey]
  have hparts := recompute_min_then_max { s with options := mergeOptions s.options p } li
    (by simpa using hli)
  have hcore : setOptionsCore s p =
      (if (mergeOptions s.options p).maintainAspectRatio
          && ((mergeOptions s.options p).resetCropOnAspectRatioChange
              || !aspectRatioIsCorrect (setCropperScaledMaxSize (setCropperScaledMinSize
                    { s with options := mergeOptions s.options p }))) then
        { state := { setCropperScaledMaxSize (setCropperScaledMinSize
              { s with options := mergeOptions s.options p }) with
            cropper := maxSizeCropperPosition (setCropperScaledMaxSize (setCropperScaledMinSize
              { s with options := mergeOptions s.options p })) }
          threw := false, possiblyChanged := true, didReset := true }
      else
        { state := setCropperScaledMaxSize (setCropperScaledMinSize
            { s with options := mergeOptions s.options p })
          threw := false, possiblyChanged := false, didReset := false }) := by
    simp only [setOptionsCore]
    rw [if_neg (by simp [hval]), if_neg (by simp [hcompl]), if_pos htrigb]
  have hcorrect : aspectRatioIsCorrect (setCropperScaledMaxSize (setCropperScaledMinSize
      { s with options := mergeOptions s.options p }))
      = decide ((s.cropper.x2 - s.cropper.x1) / (s.cropper.y2 - s.cropper.y1)
          = (mergeOptions s.options p).aspectRatio) := by
    rw [aspectRatioIsCorrect, hparts.1, hparts.2.1]
  have hfull : maxSizeCropperPosition (setCropperScaledMaxSize (setCropperScaledMinSize
      { s with options := mergeOptions s.options p }))
      = ⟨0, 0, s.maxSize.width, s.maxSize.height⟩ := by
    rw [maxSizeCropperPosition, hparts.2.2.1]
  by_cases hreset : ((mergeOptions s.options p).maintainAspectRatio
      && ((mergeOptions s.options p).resetCropOnAspectRatioChange
          || !aspectRatioIsCorrect (setCropperScaledMaxSize (setCropperScaledMinSize
                { s with options := mergeOptions s.options p })))) = true
  · rw [hcore, if_pos hreset]
    refine ⟨⟨hparts.2.2.2.2.1, hparts.2.2.2.2.2.1,
        hparts.2.2.2.2.2.2.1, hparts.2.2.2.2.2.2.2⟩, ?_, fun _ => hfull, by simp⟩
    simp only [true_iff]
    rw [hcorrect] at hreset
    simp only [Bool.and_eq_true, Bool.or_eq_true, Bool.not_eq_true',
      decide_eq_false_iff_not] at hreset
    exact hreset
  · rw [hcore, if_neg hreset]
    refine ⟨⟨hparts.2.2.2.2.1, hparts.2.2.2.2.2.1,
        hparts.2.2.2.2.2.2.1, hparts.2.2.2.2.2.2.2⟩, ?_, by simp, fun _ => hparts.1⟩
    rw [hcorrect] at hreset
    simp only [Bool.and_eq_true, Bool.or_eq_true, Bool.not_eq_true',
      decide_eq_false_iff_not] at hreset
    constructor
    · intro hfalse
      cases hfalse
    · intro hx
      exact absurd hx hreset

/-- C5 witness: a loaded 100×100 state with default options receiving
`{aspectRatio: 2}`: the branch recomputes the scaled sizes and, with
`resetCropOnAspectRatioChange` true by default, resets the position to the
full frame. -/
theorem setOptions_aspect_branch_witness :
    (setOptionsCore exampleLoadedState { aspectRatio := some 2 }).didReset = true
  ∧ (setOptionsCore exampleLoadedState { aspectRatio := some 2 }).state.cropper
      = ⟨0, 0, 100, 100⟩ := by
  have hmain := setOptions_aspect_branch exampleLoadedState { aspectRatio := some 2 }
    ⟨⟨100, 100⟩, true⟩ rfl rfl
    (by rw [setOptionsCore_threw_eq]; norm_num [mergeOptions, exampleLoadedState])
    (Or.inl ⟨by norm_num [mergeOptions, exampleLoadedState], rfl⟩)
  have hdid : (setOptionsCore exampleLoadedState { aspectRatio := some 2 }).didReset = true :=
    hmain.2.1.mpr ⟨by norm_num [mergeOptions, exampleLoadedState],
      Or.inl (by norm_num [mergeOptions, exampleLoadedState])⟩
  exact ⟨hdid, hmain.2.2.1 hdid⟩

/-- C10.  For a ready state, a successful `setOptions` whose partial has no
`maintainAspectRatio` key, no truthy `aspectRatio` while the merged
`maintainAspectRatio` is true, and no truthy min, max or static size field,
changes only the stored options: the cropper position and all four scaled
min/max sizes keep their prior values, and the external re-clamp is never
invoked (the result holds for every clamp function). -/
theorem setOptions_untouched_noop (clamp : CropperPosition → CropperState → CropperPosition)
    (s : CropperState) (p : PartialCropperOptions) (li : LoadedImageModel)
    (hli : s.loadedImage = some li) (hcomp : li.transformedComplete = true)
    (hmk : p.maintainAspectRatio = none)
    (har : ¬ ((mergeOptions s.options p).maintainAspectRatio = true
        ∧ optTruthy p.aspectRatio = true))
    (h1 : optTruthy p.cropperMinWidth = false) (h2 : optTruthy p.cropperMinHeight = false)
    (h3 : optTruthy p.cropperMaxWidth = false) (h4 : optTruthy p.cropperMaxHeight = false)
    (h5 : optTruthy p.cropperStaticWidth = false) (h6 : optTruthy p.cropperStaticHeight = false)
    (hok : (setOptionsCore s p).threw = false) :
    setOptions clamp s p = ({ s with options := mergeOptions s.options p }, false) := by
  have hval : ((mergeOptions s.options p).maintainAspectRatio
      && decide ((mergeOptions s.options p).aspectRatio = 0)) = false := by
    rw [← setOptionsCore_threw_eq]
    exact hok
  have hcompl : imageComplete { s with options := mergeOptions s.options p } = true := by
    simp [imageComplete, hli, hcomp]
  have htrigb : (((mergeOptions s.options p).maintainAspectRatio && optTruthy p.aspectRatio)
      || p.maintainAspectRatio.isSome) = false := by
    rw [hmk]
    simp only [Option.isSome_none, Bool.or_false]
    cases hmm : (mergeOptions s.options p).maintainAspectRatio
    · simp
    · simp only [Bool.true_and]
      cases hopt : optTruthy p.aspectRatio
      · rfl
      · exact absurd ⟨hmm, hopt⟩ har
  have hcore : setOptionsCore s p =
      { state := { s with options := mergeOptions s.options p }
        threw := false, possiblyChanged := false, didReset := false } := by
    simp only [setOptionsCore]
    rw [if_neg (by simp [hval]), if_neg (by simp [hcompl]), if_neg (by simp [htrigb])]
    simp [h1, h2, h3, h4, h5, h6]
  rw [setOptions, hcore]
  simp

/-- C10 witness: a loaded state receiving only
`{resetCropOnAspectRatioChange: false}` keeps its position and scaled sizes,
merging just that option. -/
theorem setOptions_untouched_noop_witness :
    setOptions (fun c _ => c) exampleLoadedState
        { resetCropOnAspectRatioChange := some false }
      = ({ exampleLoadedState with
            options := mergeOptions exampleLoadedState.options
              { resetCropOnAspectRatioChange := some false } }, false) :=
  setOptions_untouched_noop (fun c _ => c) exampleLoadedState
    { resetCropOnAspectRatioChange := some false } ⟨⟨100, 100⟩, true⟩
    rfl rfl rfl (by simp [optTruthy]) (by simp [optTruthy]) (by simp [optTruthy])
    (by simp [optTruthy]) (by simp [optTruthy]) (by simp [optTruthy]) (by simp [optTruthy])
    (by rw [setOptionsCore_threw_eq]; norm_num [mergeOptions, exampleLoadedState])

end ImageCropper
